import Mathlib

/-!
Verification of the Sparkhack RFID presence/timeout state machine (src/Main.py).

The program tracks presence of an RFID credential, and on a removal opens an
"episode": after 5 seconds it fires a camera capture, and after 6 seconds (if
the removed card was the authorized one) it fires a QR-code display.  The
shared variables `current_card`, `last_removed_time`, `last_removed_authorized`,
`image_captured`, `qr_displayed` are guarded by `state_lock`.

The embedding below translates the per-tick bodies of `rfid_reader_thread` and
`timeout_handler_thread`, the end-of-capture reset in `capture_image`, the
error handling of `display_qr`, the file writes of `generate_qr_code` and
`capture_image`, and (as event traces) the lock/blocking structure of the
threads.  Time is modelled as a natural number of seconds; the comparisons
`elapsed >= 5` and `elapsed >= 6` have the same truth value as in the source
for any monotone clock.
-/

namespace Sparkhack

/-- `AUTHORIZED_ID` from Main.py: the single authorized RFID tag id. -/
def AUTHORIZED_ID : Nat := 1047839255856

/-- `FILE_PATH`: log file encoded into the QR code. -/
def FILE_PATH : String := "/home/soham/examplelog.txt"

/-- `SAVE_PATH`: temporary QR code image save path (written by `generate_qr_code`). -/
def SAVE_PATH : String := "/home/soham/qr_debug.png"

/-- `IMAGE_DIRECTORY`: directory for captured images. -/
def IMAGE_DIRECTORY : String := "/home/soham/captured_images"

/-- The shared mutable state guarded by `state_lock` in Main.py. -/
structure SysState where
  current_card : Option Nat
  last_removed_time : Option Nat
  last_removed_authorized : Bool
  image_captured : Bool
  qr_displayed : Bool
deriving DecidableEq, Repr

/-- The initial values of the shared globals. -/
def initState : SysState :=
  { current_card := none
    last_removed_time := none
    last_removed_authorized := false
    image_captured := false
    qr_displayed := false }

/-- The locked per-tick body of `rfid_reader_thread` (Main.py lines 133-151):
given the reader's current reading `id` (possibly absent) and the current time
`now`, update the shared state.  An arriving card that differs from the tracked
one is adopted and the removal state is reset; a missing reading while a card
was tracked opens a removal episode. -/
def on_scan (st : SysState) (now : Nat) (id : Option Nat) : SysState :=
  match id with
  | some i =>
      if st.current_card ≠ some i then
        { st with
            current_card := some i
            last_removed_time := none
            image_captured := false
            qr_displayed := false }
      else st
  | none =>
      match st.current_card with
      | some c =>
          { st with
              last_removed_time := some now
              last_removed_authorized := (c == AUTHORIZED_ID)
              current_card := none }
      | none => st

/-- Result of one locked poll of `timeout_handler_thread`: the updated state,
and whether the capture thread and the QR-display thread were spawned on this
poll. -/
structure TickResult where
  state : SysState
  capture_fired : Bool
  qr_fired : Bool
deriving DecidableEq, Repr

/-- The locked per-tick body of `timeout_handler_thread` (Main.py lines
158-168).  If an episode is open (`last_removed_time` set), fire the capture
once `elapsed >= 5` and not yet fired, and fire the QR display once the removed
card was authorized, `elapsed >= 6`, and not yet fired. -/
def timeout_tick (st : SysState) (now : Nat) : TickResult :=
  match st.last_removed_time with
  | none => ⟨st, false, false⟩
  | some t0 =>
      let elapsed := now - t0
      let capFire := decide (5 ≤ elapsed) && !st.image_captured
      let st1 := if capFire then { st with image_captured := true } else st
      let qrFire := st1.last_removed_authorized && decide (6 ≤ elapsed) && !st1.qr_displayed
      let st2 := if qrFire then { st1 with qr_displayed := true } else st1
      ⟨st2, capFire, qrFire⟩

/-- The locked reset at the end of `capture_image` (Main.py lines 120-123):
clear the removal timestamp and both once-only flags.  This is the episode's
canonical end. -/
def end_episode (st : SysState) : SysState :=
  { st with
      last_removed_time := none
      image_captured := false
      qr_displayed := false }

/-- An atomic operation on the shared state: a reader-thread tick with a given
reading, a timeout-thread poll at a given time, or the completion reset of a
capture thread. -/
inductive Op where
  | scan : Nat → Option Nat → Op
  | timeout : Nat → Op
  | captureDone : Op
deriving DecidableEq, Repr

/-- Apply one atomic operation to the shared state. -/
def applyOp (st : SysState) : Op → SysState
  | Op.scan now id => on_scan st now id
  | Op.timeout now => (timeout_tick st now).state
  | Op.captureDone => end_episode st

/-- Run a sequence of atomic operations from a state. -/
def runOps (st : SysState) (ops : List Op) : SysState :=
  ops.foldl applyOp st

/-- Run a sequence of reader-thread ticks, each a pair (time, reading). -/
def runScans (st : SysState) (scans : List (Nat × Option Nat)) : SysState :=
  scans.foldl (fun s p => on_scan s p.1 p.2) st

/-- Run a sequence of timeout-thread polls at the given times. -/
def runTimeouts (st : SysState) (ts : List Nat) : SysState :=
  ts.foldl (fun s t => (timeout_tick s t).state) st

/-- How many of the timeout polls at times `ts` fire the capture action. -/
def captureFireCount (st : SysState) (ts : List Nat) : Nat :=
  match ts with
  | [] => 0
  | t :: rest =>
      let r := timeout_tick st t
      (if r.capture_fired then 1 else 0) + captureFireCount r.state rest

/-- How many of the timeout polls at times `ts` fire the QR-display action. -/
def qrFireCount (st : SysState) (ts : List Nat) : Nat :=
  match ts with
  | [] => 0
  | t :: rest =>
      let r := timeout_tick st t
      (if r.qr_fired then 1 else 0) + qrFireCount r.state rest

/-- A failure of a side-effecting action (camera, file, rendering). -/
inductive ActionIOFailure where
  | ioError : String → ActionIOFailure
deriving DecidableEq, Repr

/-- The body of `capture_image` (Main.py lines 108-123) as observed by the
shared state.  The camera steps (`picam2.start`, `capture_file`, `picam2.stop`)
may raise, represented by the `captureResult` parameter; the function body has
no exception handler, so a raised error aborts the function and the final
locked reset block never runs.  Returns the resulting shared state together
with the exception, if any, that propagates out of the thread body. -/
def capture_image (captureResult : Except ActionIOFailure Unit) (st : SysState) :
    SysState × Option ActionIOFailure :=
  match captureResult with
  | Except.error e => (st, some e)
  | Except.ok _ => (end_episode st, none)

/-- State of the OLED display after an operation finishes. -/
inductive DisplayState where
  | cleared
  | showingText (msg : String)
  | showingBitmap
deriving DecidableEq, Repr

/-- Outcome of one run of `display_qr`: the shared state it leaves behind, the
final display state, the exception (if any) that propagates to its caller, and
the error message (if any) it logs. -/
structure QrOutcome where
  state : SysState
  display : DisplayState
  raised : Option String
  logged : Option String
deriving DecidableEq, Repr

/-- The fallible steps inside the `try` of `display_qr` (Main.py lines 95-100):
read and trim `FILE_PATH`, generate (and save) the QR image from the data, then
render it on the OLED.  Each step's outcome is a parameter of the model. -/
def qr_pipeline (readResult : Except String String)
    (encodeResult : String → Except String Unit)
    (renderResult : Except String Unit) : Except String Unit := do
  let data ← readResult
  encodeResult data.trim
  renderResult

/-- The body of `display_qr` (Main.py lines 93-103).  The whole body sits in a
`try` whose `except` catches every exception, prints it, and clears the
display.  On success `display_qr_native` ends with `device.clear()`, and the
shared state is never touched on any path. -/
def display_qr (readResult : Except String String)
    (encodeResult : String → Except String Unit)
    (renderResult : Except String Unit)
    (st : SysState) : QrOutcome :=
  match qr_pipeline readResult encodeResult renderResult with
  | Except.ok _ => ⟨st, DisplayState.cleared, none, none⟩
  | Except.error e => ⟨st, DisplayState.cleared, none, some e⟩

/-- The persistent files written by one run of `capture_image` (Main.py lines
112-116): a single image file in `IMAGE_DIRECTORY` whose name embeds the
capture timestamp. -/
def capture_image_writes (timestamp : String) : List String :=
  [IMAGE_DIRECTORY ++ "/image_" ++ timestamp ++ ".jpg"]

/-- The persistent files written by `generate_qr_code` (Main.py line 77):
`img.save(SAVE_PATH)` writes the QR debug image. -/
def generate_qr_code_writes : List String := [SAVE_PATH]

/-- The persistent files written by the code-display path `display_qr`
(via `generate_qr_code`); `display_qr_native` itself writes none. -/
def display_qr_writes : List String := generate_qr_code_writes

/-- Every persistent file write the program performs after initialization:
`capture_image` and the QR path are the only writers (the reader and timeout
thread bodies and `display_message` write no files). -/
def program_writes (timestamp : String) : List String :=
  capture_image_writes timestamp ++ display_qr_writes

/-- A path is a captured-image file: inside `IMAGE_DIRECTORY`, named with an
embedded timestamp. -/
def inImageDir (w : String) : Prop :=
  ∃ ts, w = IMAGE_DIRECTORY ++ "/image_" ++ ts ++ ".jpg"

/-- Primitive events of a thread body, used to model which steps run while the
`state_lock` is held. -/
inductive Ev where
  | acquire
  | release
  | sleepMs (ms : Nat)
  | drawText (msg : String)
  | clearDisplay
  | captureFrame
  | spawnCapture
  | spawnQr
  | writeFile (path : String)
deriving DecidableEq, Repr

/-- Blocking steps in the sense of the concurrency policy: sleeps, display
rendering, and camera capture. -/
def isBlocking : Ev → Bool
  | Ev.sleepMs _ => true
  | Ev.drawText _ => true
  | Ev.clearDisplay => true
  | Ev.captureFrame => true
  | _ => false

/-- Event trace of `display_message` (Main.py lines 57-64): draw the text, hold
2 seconds, clear. -/
def display_message_trace (msg : String) : List Ev :=
  [Ev.drawText msg, Ev.sleepMs 2000, Ev.clearDisplay]

/-- Event trace of one iteration of `rfid_reader_thread` (Main.py lines
131-152) on reading `id`: the `with state_lock` block spans the whole
transition body — including, on an arrival transition, the `display_message`
call — followed by the 100 ms sleep outside the lock. -/
def reader_tick_trace (st : SysState) (id : Option Nat) : List Ev :=
  Ev.acquire ::
    (match id with
     | some i =>
         if st.current_card ≠ some i then
           display_message_trace (if i == AUTHORIZED_ID then "AUTHORIZED" else "UNAUTHORIZED")
         else []
     | none => [])
    ++ [Ev.release, Ev.sleepMs 100]

/-- Event trace of one iteration of `timeout_handler_thread` (Main.py lines
157-169): the lock spans only the check-and-set and the (non-blocking) thread
spawns; the 100 ms sleep is outside the lock. -/
def timeout_tick_trace (st : SysState) (now : Nat) : List Ev :=
  let r := timeout_tick st now
  Ev.acquire ::
    ((if r.capture_fired then [Ev.spawnCapture] else [])
      ++ (if r.qr_fired then [Ev.spawnQr] else []))
    ++ [Ev.release, Ev.sleepMs 100]

/-- Event trace of `capture_image` (Main.py lines 108-123) on the success path:
all slow steps (sensor warm-up, capture, cooldown) precede the lock; the lock
spans only the reset of the shared variables. -/
def capture_image_trace (timestamp : String) : List Ev :=
  [Ev.sleepMs 2000, Ev.captureFrame,
   Ev.writeFile (IMAGE_DIRECTORY ++ "/image_" ++ timestamp ++ ".jpg"),
   Ev.sleepMs 10000, Ev.acquire, Ev.release]

/-- `blockedUnderLock tr d = true` iff, scanning the trace `tr` starting at
lock depth `d`, some blocking event occurs while the lock is held. -/
def blockedUnderLock : List Ev → Nat → Bool
  | [], _ => false
  | e :: rest, d =>
      match e with
      | Ev.acquire => blockedUnderLock rest (d + 1)
      | Ev.release => blockedUnderLock rest (d - 1)
      | _ => (isBlocking e && decide (0 < d)) || blockedUnderLock rest d

/-- The reader tick performs an arrival transition (adopts a new card and shows
the notification) exactly when a card is read that differs from the tracked
one. -/
def arrivalTransition (st : SysState) (id : Option Nat) : Prop :=
  ∃ i, id = some i ∧ st.current_card ≠ some i

/-- Boolean test for `arrivalTransition`. -/
def arrivalTransitionB (st : SysState) (id : Option Nat) : Bool :=
  match id with
  | some i => st.current_card != some i
  | none => false

theorem arrivalTransitionB_iff (st : SysState) (id : Option Nat) :
    arrivalTransitionB st id = true ↔ arrivalTransition st id := by
  cases id <;> simp [arrivalTransitionB, arrivalTransition]

/-! ## Basic lemmas about the transition functions -/

theorem on_scan_current_card (st : SysState) (now : Nat) (id : Option Nat) :
    (on_scan st now id).current_card = id := by
  cases id with
  | some i =>
      by_cases h : st.current_card = some i
      · simp [on_scan, h]
      · simp [on_scan, h]
  | none =>
      cases h : st.current_card with
      | some c => simp [on_scan, h]
      | none => simp [on_scan, h]

theorem timeout_tick_of_no_episode (st : SysState) (now : Nat)
    (h : st.last_removed_time = none) :
    timeout_tick st now = ⟨st, false, false⟩ := by
  simp [timeout_tick, h]

theorem timeout_tick_state_lrt (st : SysState) (now : Nat) :
    ((timeout_tick st now).state).last_removed_time = st.last_removed_time := by
  cases h : st.last_removed_time with
  | none => simp [timeout_tick, h]
  | some t0 => simp [timeout_tick, h, apply_ite (SysState.last_removed_time)]

theorem timeout_tick_state_current (st : SysState) (now : Nat) :
    ((timeout_tick st now).state).current_card = st.current_card := by
  cases h : st.last_removed_time with
  | none => simp [timeout_tick, h]
  | some t0 => simp [timeout_tick, h, apply_ite (SysState.current_card)]

theorem timeout_tick_state_auth (st : SysState) (now : Nat) :
    ((timeout_tick st now).state).last_removed_authorized = st.last_removed_authorized := by
  cases h : st.last_removed_time with
  | none => simp [timeout_tick, h]
  | some t0 => simp [timeout_tick, h, apply_ite (SysState.last_removed_authorized)]

theorem timeout_tick_capture_fired (st : SysState) (t0 now : Nat)
    (h : st.last_removed_time = some t0) :
    (timeout_tick st now).capture_fired = (decide (t0 + 5 ≤ now) && !st.image_captured) := by
  simp only [timeout_tick, h]
  congr 1
  simp only [decide_eq_decide]
  omega

theorem timeout_tick_state_captured (st : SysState) (now : Nat) :
    ((timeout_tick st now).state).image_captured
      = (st.image_captured || (timeout_tick st now).capture_fired) := by
  cases h : st.last_removed_time with
  | none => simp [timeout_tick, h]
  | some t0 =>
      simp only [timeout_tick, h]
      cases hb : (decide (5 ≤ now - t0) && !st.image_captured) with
      | false => simp [hb, apply_ite (SysState.image_captured)]
      | true =>
          have : st.image_captured = false := by
            cases hc : st.image_captured <;> simp [hc] at hb ⊢
          simp [hb, this, apply_ite (SysState.image_captured)]

theorem timeout_tick_qr_fired_unauthorized (st : SysState) (now : Nat)
    (h : st.last_removed_authorized = false) :
    (timeout_tick st now).qr_fired = false := by
  cases hl : st.last_removed_time with
  | none => simp [timeout_tick, hl]
  | some t0 => simp [timeout_tick, hl, h, apply_ite (SysState.last_removed_authorized)]

/-! ## Fire-count lemmas for the timeout thread -/

theorem captureFireCount_of_captured (ts : List Nat) :
    ∀ st : SysState, st.image_captured = true → captureFireCount st ts = 0 := by
  induction ts with
  | nil => intro st _; rfl
  | cons t rest ih =>
      intro st h
      have hf : (timeout_tick st t).capture_fired = false := by
        cases hl : st.last_removed_time with
        | none => simp [timeout_tick, hl]
        | some t0 => rw [timeout_tick_capture_fired st t0 t hl]; simp [h]
      have hs : ((timeout_tick st t).state).image_captured = true := by
        rw [timeout_tick_state_captured]; simp [h]
      simp [captureFireCount, hf, ih _ hs]

theorem captureFireCount_le_one (ts : List Nat) :
    ∀ st : SysState, captureFireCount st ts ≤ 1 := by
  induction ts with
  | nil => intro st; simp [captureFireCount]
  | cons t rest ih =>
      intro st
      cases hf : (timeout_tick st t).capture_fired with
      | false => simpa [captureFireCount, hf] using ih (timeout_tick st t).state
      | true =>
          have hs : ((timeout_tick st t).state).image_captured = true := by
            rw [timeout_tick_state_captured]; simp [hf]
          simp [captureFireCount, hf, captureFireCount_of_captured rest _ hs]

theorem captureFireCount_eq_one (ts : List Nat) :
    ∀ (st : SysState) (t0 : Nat), st.last_removed_time = some t0 →
      st.image_captured = false → (∃ t ∈ ts, t0 + 5 ≤ t) →
      captureFireCount st ts = 1 := by
  induction ts with
  | nil => intro st t0 _ _ hex; simp at hex
  | cons t rest ih =>
      intro st t0 hl hc hex
      by_cases ht : t0 + 5 ≤ t
      · have hf : (timeout_tick st t).capture_fired = true := by
          rw [timeout_tick_capture_fired st t0 t hl]; simp [ht, hc]
        have hs : ((timeout_tick st t).state).image_captured = true := by
          rw [timeout_tick_state_captured]; simp [hf]
        simp [captureFireCount, hf, captureFireCount_of_captured rest _ hs]
      · have hf : (timeout_tick st t).capture_fired = false := by
          rw [timeout_tick_capture_fired st t0 t hl]; simp [ht]
        have hl' : ((timeout_tick st t).state).last_removed_time = some t0 := by
          rw [timeout_tick_state_lrt]; exact hl
        have hc' : ((timeout_tick st t).state).image_captured = false := by
          rw [timeout_tick_state_captured]; simp [hf, hc]
        have hex' : ∃ u ∈ rest, t0 + 5 ≤ u := by
          rcases hex with ⟨u, hu, hle⟩
          rcases List.mem_cons.mp hu with rfl | hu'
          · exact absurd hle ht
          · exact ⟨u, hu', hle⟩
        simp only [captureFireCount, hf]
        simpa using ih _ t0 hl' hc' hex'

theorem qrFireCount_unauthorized (ts : List Nat) :
    ∀ st : SysState, st.last_removed_authorized = false → qrFireCount st ts = 0 := by
  induction ts with
  | nil => intro st _; rfl
  | cons t rest ih =>
      intro st h
      have h1 := timeout_tick_qr_fired_unauthorized st t h
      have h2 : ((timeout_tick st t).state).last_removed_authorized = false := by
        rw [timeout_tick_state_auth]; exact h
      simp [qrFireCount, h1, ih _ h2]

/-! ## Invariant I1 -/

/-- Invariant I1: whenever a card is tracked as present, no removal timestamp
is pending. -/
def I1 (st : SysState) : Prop :=
  st.current_card ≠ none → st.last_removed_time = none

theorem applyOp_preserves_I1 (st : SysState) (op : Op) (h : I1 st) : I1 (applyOp st op) := by
  cases op with
  | scan now id =>
      cases id with
      | some i =>
          by_cases hc : st.current_card = some i
          · intro hne
            simp only [applyOp, on_scan, hc] at hne ⊢
            simp only [ne_eq, not_true_eq_false, if_false] at hne ⊢
            exact h hne
          · intro _
            simp [applyOp, on_scan, hc]
      | none =>
          cases hc : st.current_card with
          | some c => intro hne; simp [applyOp, on_scan, hc] at hne
          | none =>
              intro hne
              simp only [applyOp, on_scan, hc] at hne ⊢
              exact absurd rfl hne
  | timeout now =>
      intro hne
      rw [applyOp, timeout_tick_state_lrt]
      apply h
      rwa [applyOp, timeout_tick_state_current] at hne
  | captureDone =>
      intro _
      simp [applyOp, end_episode]

theorem runOps_preserves_I1 (ops : List Op) :
    ∀ st : SysState, I1 st → I1 (runOps st ops) := by
  induction ops with
  | nil => intro st h; exact h
  | cons op rest ih =>
      intro st h
      exact ih (applyOp st op) (applyOp_preserves_I1 st op h)

/-! ## Claim theorems -/

/-- C1: for every finite sequence of scan readings fed to the per-tick body of
`rfid_reader_thread`, the tracked `current_card` afterwards equals the last
reading: the identifier of the most recent reading when it was non-absent, and
`none` (Absent) when the most recent reading was absent. -/
theorem presence_tracks_last_reading (st : SysState) (scans : List (Nat × Option Nat))
    (now : Nat) (id : Option Nat) :
    (runScans st (scans ++ [(now, id)])).current_card = id := by
  unfold runScans
  rw [List.foldl_append]
  exact on_scan_current_card _ now id

/-- C2: invariant I1 — in every state reachable from the initial state by any
interleaving of the atomic operations (reader-thread scan updates, timeout
polls, capture-completion resets), if `current_card` is not `none` then
`last_removed_time` is `none`. -/
theorem reachable_present_implies_no_removal (ops : List Op)
    (h : (runOps initState ops).current_card ≠ none) :
    (runOps initState ops).last_removed_time = none :=
  runOps_preserves_I1 ops initState (fun _ => rfl) h

theorem reachable_present_implies_no_removal_witness :
    (runOps initState [Op.scan 0 (some 7)]).current_card ≠ none ∧
      (runOps initState [Op.scan 0 (some 7)]).last_removed_time = none :=
  ⟨by decide, reachable_present_implies_no_removal [Op.scan 0 (some 7)] (by decide)⟩

/-- C3: within a single removal episode (an open episode with removal time
`t0` and capture not yet started, polled any number of times by the timeout
thread), the capture-start check succeeds on at most one poll, and on exactly
one poll provided some poll happens at or after the 5-second threshold. -/
theorem capture_fires_exactly_once (st : SysState) (t0 : Nat) (ts : List Nat)
    (hlrt : st.last_removed_time = some t0) (hcap : st.image_captured = false) :
    captureFireCount st ts ≤ 1 ∧
      ((∃ t ∈ ts, t0 + 5 ≤ t) → captureFireCount st ts = 1) :=
  ⟨captureFireCount_le_one ts st,
   fun hex => captureFireCount_eq_one ts st t0 hlrt hcap hex⟩

theorem capture_fires_exactly_once_witness :
    captureFireCount
        { current_card := none, last_removed_time := some 10,
          last_removed_authorized := false, image_captured := false,
          qr_displayed := false } [11, 14, 15, 16, 30] ≤ 1 ∧
      ((∃ t ∈ [11, 14, 15, 16, 30], 10 + 5 ≤ t) →
        captureFireCount
          { current_card := none, last_removed_time := some 10,
            last_removed_authorized := false, image_captured := false,
            qr_displayed := false } [11, 14, 15, 16, 30] = 1) :=
  capture_fires_exactly_once _ 10 [11, 14, 15, 16, 30] rfl rfl

/-- C6: for a removal episode opened by removing a card `c` whose id differs
from `AUTHORIZED_ID`, the code-display-start check never succeeds during the
episode: over any sequence of timeout polls following the removal transition,
the QR display fires zero times.  (Contrapositive: it can succeed only when
the removed id equals the authorized constant.) -/
theorem unauthorized_removal_never_starts_code_display
    (st : SysState) (c now : Nat) (ts : List Nat)
    (hc : st.current_card = some c) (hne : c ≠ AUTHORIZED_ID) :
    qrFireCount (on_scan st now none) ts = 0 := by
  apply qrFireCount_unauthorized
  simp [on_scan, hc]
  exact hne

theorem unauthorized_removal_never_starts_code_display_witness :
    qrFireCount
        (on_scan
          { current_card := some 7, last_removed_time := none,
            last_removed_authorized := true, image_captured := false,
            qr_displayed := false } 0 none) [0, 3, 6, 7, 100] = 0 :=
  unauthorized_removal_never_starts_code_display _ 7 0 [0, 3, 6, 7, 100] rfl (by decide)

/-- C7: timing threshold for the capture-start check.  For an episode opened
by a removal at time `t0`: every timeout poll at a time `now` with
`now < t0 + 5` returns false, and a poll at a time with `t0 + 5 ≤ now`
(in particular exactly at the threshold) returns true as long as the capture
has not already been started. -/
theorem capture_start_threshold (st : SysState) (t0 now : Nat)
    (h : st.last_removed_time = some t0) :
    (now < t0 + 5 → (timeout_tick st now).capture_fired = false) ∧
      (st.image_captured = false → t0 + 5 ≤ now →
        (timeout_tick st now).capture_fired = true) := by
  rw [timeout_tick_capture_fired st t0 now h]
  constructor
  · intro hlt
    simp [Nat.not_le.mpr hlt]
  · intro hc hle
    simp [hle, hc]

theorem capture_start_threshold_witness :
    (timeout_tick
        { current_card := none, last_removed_time := some 10,
          last_removed_authorized := false, image_captured := false,
          qr_displayed := false } 14).capture_fired = false ∧
      (timeout_tick
        { current_card := none, last_removed_time := some 10,
          last_removed_authorized := false, image_captured := false,
          qr_displayed := false } 15).capture_fired = true :=
  ⟨(capture_start_threshold _ 10 14 rfl).1 (by decide),
   (capture_start_threshold _ 10 15 rfl).2 rfl (by decide)⟩

/-- C10: frame of the episode-end reset and of the was-authorized flag.
(1) `end_episode` (the locked reset in `capture_image`) sets exactly
`last_removed_time := none` and the two action flags to false, leaving
`current_card` and `last_removed_authorized` unchanged.
(2) `on_scan` changes `last_removed_authorized` only on a Present→Absent
transition (an absent reading while a card was tracked).
(3) When no removal event is open, a timeout poll is a complete no-op, so the
stale `last_removed_authorized` value between episodes is never observed by
the scheduler. -/
theorem episode_end_frame :
    (∀ st : SysState,
        (end_episode st).current_card = st.current_card ∧
        (end_episode st).last_removed_authorized = st.last_removed_authorized ∧
        (end_episode st).last_removed_time = none ∧
        (end_episode st).image_captured = false ∧
        (end_episode st).qr_displayed = false) ∧
    (∀ (st : SysState) (now : Nat) (id : Option Nat),
        (on_scan st now id).last_removed_authorized ≠ st.last_removed_authorized →
          id = none ∧ st.current_card ≠ none) ∧
    (∀ (st : SysState) (now : Nat),
        st.last_removed_time = none → timeout_tick st now = ⟨st, false, false⟩) := by
  refine ⟨fun st => ⟨rfl, rfl, rfl, rfl, rfl⟩, ?_, fun st now h => timeout_tick_of_no_episode st now h⟩
  intro st now id hch
  cases id with
  | some i =>
      exfalso
      apply hch
      by_cases hc : st.current_card = some i <;> simp [on_scan, hc]
  | none =>
      cases hc : st.current_card with
      | none => exact absurd (by simp [on_scan, hc]) hch
      | some c => exact ⟨rfl, by simp [hc]⟩

theorem episode_end_frame_witness :
    ((none : Option Nat) = none ∧
      ({ current_card := some 3, last_removed_time := none,
         last_removed_authorized := true, image_captured := false,
         qr_displayed := false } : SysState).current_card ≠ none) ∧
    timeout_tick initState 9 = ⟨initState, false, false⟩ :=
  ⟨episode_end_frame.2.1
      { current_card := some 3, last_removed_time := none,
        last_removed_authorized := true, image_captured := false,
        qr_displayed := false } 5 none (by decide),
   episode_end_frame.2.2 initState 9 rfl⟩

/-- C8: whenever any step of the code-display pipeline (reading the data file,
encoding/saving the QR, or rendering) fails, `display_qr` catches the error
inside the action: it logs the error, leaves the display cleared, propagates
no exception to the scheduler, and leaves the scheduler-visible shared state
unchanged. -/
theorem display_qr_failure_contained (readResult : Except String String)
    (encodeResult : String → Except String Unit) (renderResult : Except String Unit)
    (st : SysState) (e : String)
    (hfail : qr_pipeline readResult encodeResult renderResult = Except.error e) :
    display_qr readResult encodeResult renderResult st
      = ⟨st, DisplayState.cleared, none, some e⟩ := by
  simp [display_qr, hfail]

theorem display_qr_failure_contained_witness :
    display_qr (Except.error "No such file or directory")
        (fun _ => Except.ok ()) (Except.ok ()) initState
      = ⟨initState, DisplayState.cleared, none, some "No such file or directory"⟩ :=
  display_qr_failure_contained (Except.error "No such file or directory")
    (fun _ => Except.ok ()) (Except.ok ()) initState "No such file or directory" rfl

/-- C9 counterexample: the code-display path writes a persistent file,
`SAVE_PATH` (`/home/soham/qr_debug.png`, written by `img.save` in
`generate_qr_code`), which is not a captured-image file inside the fixed
output directory — refuting the claim that the captured images are the only
persisted writes. -/
theorem qr_path_writes_outside_image_directory :
    SAVE_PATH ∈ display_qr_writes ∧ ¬ inImageDir SAVE_PATH := by
  refine ⟨by simp [display_qr_writes, generate_qr_code_writes], ?_⟩
  rintro ⟨ts, h⟩
  have hlen := congrArg String.length h
  rw [String.length_append, String.length_append, String.length_append] at hlen
  have h1 : SAVE_PATH.length = 24 := rfl
  have h2 : IMAGE_DIRECTORY.length = 27 := rfl
  have h3 : ("/image_" : String).length = 7 := rfl
  have h4 : (".jpg" : String).length = 4 := rfl
  omega

/-- C9 amended: every persistent file the program writes is either a captured
image inside the fixed `IMAGE_DIRECTORY` with a filename embedding the capture
timestamp, or the QR debug image at the fixed `SAVE_PATH` written by the
code-display path. -/
theorem program_writes_classified (timestamp w : String)
    (hw : w ∈ program_writes timestamp) :
    inImageDir w ∨ w = SAVE_PATH := by
  simp [program_writes, capture_image_writes, display_qr_writes,
        generate_qr_code_writes] at hw
  rcases hw with h | h
  · exact Or.inl ⟨timestamp, h⟩
  · exact Or.inr h

theorem program_writes_classified_witness :
    inImageDir (IMAGE_DIRECTORY ++ "/image_" ++ "20250101-120000" ++ ".jpg")
      ∨ (IMAGE_DIRECTORY ++ "/image_" ++ "20250101-120000" ++ ".jpg") = SAVE_PATH :=
  program_writes_classified "20250101-120000" _
    (by simp [program_writes, capture_image_writes, display_qr_writes,
              generate_qr_code_writes])

/-- C4 counterexample: on an arrival transition (initial state, reading card
5), the reader thread's tick performs the blocking 2-second display
notification while `state_lock` is held — refuting the claim that no blocking
step ever runs under the lock. -/
theorem reader_tick_blocks_under_lock :
    blockedUnderLock (reader_tick_trace initState (some 5)) 0 = true := by
  decide

/-- C4 amended: the lock is held across a blocking step exactly on the reader
thread's arrival transitions, where the 2-second display notification runs
inside the `with state_lock` block; the timeout thread's tick (its spawns are
non-blocking), the capture thread (all slow steps precede its lock
acquisition), and every reader tick that is not an arrival transition hold no
blocking step under the lock. -/
theorem lock_blocking_characterization :
    (∀ (st : SysState) (now : Nat),
        blockedUnderLock (timeout_tick_trace st now) 0 = false) ∧
    (∀ ts : String, blockedUnderLock (capture_image_trace ts) 0 = false) ∧
    (∀ (st : SysState) (id : Option Nat),
        blockedUnderLock (reader_tick_trace st id) 0 = arrivalTransitionB st id) := by
  refine ⟨?_, ?_, ?_⟩
  · intro st now
    cases hc : (timeout_tick st now).capture_fired <;>
      cases hq : (timeout_tick st now).qr_fired <;>
        simp [timeout_tick_trace, hc, hq, blockedUnderLock, isBlocking]
  · intro ts
    rfl
  · intro st id
    cases id with
    | some i =>
        by_cases hc : st.current_card = some i
        · simp [reader_tick_trace, arrivalTransitionB, hc, display_message_trace,
                blockedUnderLock, isBlocking]
        · simp [reader_tick_trace, arrivalTransitionB, hc, display_message_trace,
                blockedUnderLock, isBlocking]
    | none =>
        simp [reader_tick_trace, arrivalTransitionB, blockedUnderLock, isBlocking]

/-- C5: the code, evaluated at a failing capture.  When the camera steps of
`capture_image` raise (here: an I/O error with an episode open at time 100 and
`image_captured` already set by the scheduler), the exception propagates out of
the thread body and the final locked reset block never runs: the state is
returned unchanged, with `last_removed_time` still `some 100` — the episode is
left stuck, contradicting the requirement that a failed capture still reaches
the `end_episode` reset. -/
theorem capture_failure_skips_episode_reset :
    capture_image (Except.error (ActionIOFailure.ioError "camera capture failed"))
        { current_card := none, last_removed_time := some 100,
          last_removed_authorized := true, image_captured := true,
          qr_displayed := false }
      = ({ current_card := none, last_removed_time := some 100,
           last_removed_authorized := true, image_captured := true,
           qr_displayed := false },
         some (ActionIOFailure.ioError "camera capture failed")) := rfl

end Sparkhack
